import Mathlib

/-
  Verification development for the ssh-mcp session manager
  (src/ssh-mcp/src/ssh_mcp/config.py and runner.py).

  The Python code is shallowly embedded: pure validators become Lean
  functions returning Except (ConfigError is the String payload), the
  session store becomes a list of records (Python dict preserves
  insertion order and has unique keys), wall-clock reads become an Int
  parameter, and every subprocess invocation is represented by an
  oracle value describing its outcome.
-/

set_option autoImplicit false

namespace SshMcp

/-- The whitespace characters stripped by Python str.strip with no argument. -/
def isPyWhitespace (c : Char) : Bool :=
  c = ' ' || c = '\t' || c = '\n' || c = '\r' || c = '\x0b' || c = '\x0c'

/-- Python str.strip: drop leading and trailing whitespace. -/
def pyStrip (s : String) : String :=
  String.mk (((s.toList.dropWhile isPyWhitespace).reverse.dropWhile isPyWhitespace).reverse)

/-- Python str.rstrip given a single newline argument: drop trailing newlines. -/
def pyRstripNewline (s : String) : String :=
  String.mk ((s.toList.reverse.dropWhile (fun c => c = '\n')).reverse)

/-- Characters admitted by the _IDENTIFIER_PATTERN and _HOST_PATTERN regexes
    of config.py: [A-Za-z0-9._-]. -/
def isIdentChar (c : Char) : Bool :=
  ('A' ≤ c && c ≤ 'Z') || ('a' ≤ c && c ≤ 'z') || ('0' ≤ c && c ≤ '9') ||
    c = '.' || c = '_' || c = '-'

/-- Full match of the identifier/host regex: one or more identifier characters. -/
def matchesIdentifierPattern (s : String) : Bool :=
  !s.isEmpty && s.toList.all isIdentChar

/-- Lowercase hexadecimal digit. -/
def isLowerHex (c : Char) : Bool :=
  ('a' ≤ c && c ≤ 'f') || ('0' ≤ c && c ≤ '9')

/-- Full match of the _SESSION_ID_PATTERN regex: exactly 8 lowercase hex chars. -/
def matchesSessionIdPattern (s : String) : Bool :=
  s.toList.length = 8 && s.toList.all isLowerHex

/-- Membership of a character in a string, as Python operator in on str. -/
def strContainsChar (s : String) (c : Char) : Bool :=
  s.toList.contains c

/-- config.SshSettings (loading from the environment is out of scope; the
    record holds already-parsed values). -/
structure SshSettings where
  command : String
  base_args : List String
  timeout_seconds : Nat
  allowed_hosts : List String
  default_host : Option String
  default_user : Option String
  default_port : Option Int
  max_command_chars : Nat
  max_output_chars : Nat
  health_check_args : List String
  password : Option String
  password_file : Option String
  session_idle_timeout_seconds : Nat
  max_sessions : Nat
  session_dir : Option String
deriving DecidableEq

/-- config.ResolvedTarget. -/
structure ResolvedTarget where
  host : String
  user : Option String
  port : Option Int
  destination : String
deriving DecidableEq

/-- config.normalize_identifier. -/
def normalize_identifier (raw_value : String) (field_name : String) : Except String String :=
  let value := pyStrip raw_value
  if value.isEmpty then
    Except.error (field_name ++ " cannot be empty.")
  else if strContainsChar value '\n' || strContainsChar value '\r' then
    Except.error (field_name ++ " cannot contain newline characters.")
  else if !matchesIdentifierPattern value then
    Except.error (field_name ++ " contains invalid characters. " ++
      "Allowed characters: letters, digits, dot, underscore, hyphen.")
  else
    Except.ok value

/-- config.normalize_host. -/
def normalize_host (raw_value : String) : Except String String :=
  normalize_identifier raw_value ("host")

/-- config.normalize_optional_identifier. -/
def normalize_optional_identifier (raw_value : Option String) (field_name : String) :
    Except String (Option String) :=
  match raw_value with
  | none => Except.ok none
  | some raw =>
    let stripped := pyStrip raw
    if stripped.isEmpty then Except.ok none
    else (normalize_identifier stripped field_name).map (fun v => some v)

/-- config.normalize_port. -/
def normalize_port (raw_value : Int) (field_name : String) : Except String Int :=
  if raw_value < 1 || raw_value > 65535 then
    Except.error (field_name ++ " must be between 1 and 65535.")
  else
    Except.ok raw_value

/-- ASCII lowercase of one character (session ids and the inputs the code
    lowercases are ASCII; Python str.lower agrees there). -/
def asciiLowerChar (c : Char) : Char :=
  if 'A' ≤ c && c ≤ 'Z' then Char.ofNat (c.toNat + 32) else c

/-- Python str.lower on ASCII text. -/
def pyLower (s : String) : String :=
  String.mk (s.toList.map asciiLowerChar)

/-- config.normalize_session_id. -/
def normalize_session_id (raw_value : String) : Except String String :=
  let value := pyLower (pyStrip raw_value)
  if value.isEmpty then
    Except.error ("session_id cannot be empty.")
  else if strContainsChar value '\n' || strContainsChar value '\r' then
    Except.error ("session_id cannot contain newline characters.")
  else if !matchesSessionIdPattern value then
    Except.error ("session_id format is invalid (expected 8 lowercase hex characters).")
  else
    Except.ok value

/-- config.normalize_remote_command. -/
def normalize_remote_command (raw_command : String) (max_chars : Nat) : Except String String :=
  let command := pyStrip raw_command
  if command.isEmpty then
    Except.error ("command cannot be empty.")
  else if strContainsChar command '\n' || strContainsChar command '\r' then
    Except.error ("command cannot contain newline characters.")
  else if command.toList.length > max_chars then
    Except.error ("command length exceeds maximum of " ++ toString max_chars ++ " characters.")
  else
    Except.ok command

/-- config.resolve_remote_cwd. -/
def resolve_remote_cwd (raw_cwd : Option String) : Except String (Option String) :=
  match raw_cwd with
  | none => Except.ok none
  | some raw =>
    let cwd := pyStrip raw
    if cwd.isEmpty then Except.ok none
    else if strContainsChar cwd '\n' || strContainsChar cwd '\r' then
      Except.error ("cwd cannot contain newline characters.")
    else
      Except.ok (some cwd)

/-- The host branch at the top of config.resolve_target: caller host if
    non-blank (normalized), else the configured default host. -/
def resolve_target_host (settings : SshSettings) (host : Option String) :
    Except String String :=
  match host with
  | none =>
    match settings.default_host with
    | none => Except.error ("host is required when SSH_MCP_DEFAULT_HOST is not set.")
    | some dh => Except.ok dh
  | some h =>
    if (pyStrip h).isEmpty then
      match settings.default_host with
      | none => Except.error ("host is required when SSH_MCP_DEFAULT_HOST is not set.")
      | some dh => Except.ok dh
    else
      normalize_host h

/-- The port resolution of config.resolve_target: configured default when the
    caller omits the port, else the validated caller value. -/
def resolve_target_port (settings : SshSettings) (port : Option Int) :
    Except String (Option Int) :=
  match port with
  | none => Except.ok settings.default_port
  | some p => (normalize_port p ("port")).map (fun v => some v)

/-- The Python expression normalized_user or settings.default_user
    (normalized_user is None or non-empty, so truthiness is presence). -/
def resolved_user_of (normalized_user default_user : Option String) : Option String :=
  match normalized_user with
  | some u => some u
  | none => default_user

/-- The destination expression of config.resolve_target. -/
def destination_of (resolved_user : Option String) (host : String) : String :=
  match resolved_user with
  | some u => u ++ "@" ++ host
  | none => host

/-- config.resolve_target. -/
def resolve_target (settings : SshSettings) (host : Option String) (user : Option String)
    (port : Option Int) : Except String ResolvedTarget :=
  match resolve_target_host settings host with
  | Except.error e => Except.error e
  | Except.ok normalized_host =>
    match normalize_optional_identifier user ("user") with
    | Except.error e => Except.error e
    | Except.ok normalized_user =>
      match resolve_target_port settings port with
      | Except.error e => Except.error e
      | Except.ok resolved_port =>
        if !settings.allowed_hosts.isEmpty &&
            !settings.allowed_hosts.contains normalized_host then
          Except.error ("Host \x27" ++ normalized_host ++
            "\x27 is not allowlisted. Allowed hosts: " ++
            String.intercalate (", ") settings.allowed_hosts ++ ".")
        else
          Except.ok
            { host := normalized_host
              user := resolved_user_of normalized_user settings.default_user
              port := resolved_port
              destination :=
                destination_of (resolved_user_of normalized_user settings.default_user)
                  normalized_host }

/-- config.resolve_password.  Reading the password file is modelled by the
    read_file oracle: none stands for an OSError, some c for contents c. -/
def resolve_password (settings : SshSettings) (read_file : String → Option String) :
    Except String (Option String) :=
  match settings.password with
  | some pw => Except.ok (some pw)
  | none =>
    match settings.password_file with
    | none => Except.ok none
    | some path =>
      match read_file path with
      | none => Except.error ("Failed to read SSH_MCP_PASSWORD_FILE: " ++ path)
      | some secret =>
        let value := pyRstripNewline secret
        if value.isEmpty then
          Except.error ("SSH_MCP_PASSWORD_FILE is empty.")
        else if strContainsChar value '\r' then
          Except.error ("SSH_MCP_PASSWORD_FILE contains carriage-return characters.")
        else
          Except.ok (some value)

/-- Characters that Python shlex.quote leaves unquoted (the complement of its
    _find_unsafe regex, ASCII): letters, digits, underscore, at sign, percent,
    plus, equals, colon, comma, dot, slash, hyphen. -/
def isShlexSafe (c : Char) : Bool :=
  ('a' ≤ c && c ≤ 'z') || ('A' ≤ c && c ≤ 'Z') || ('0' ≤ c && c ≤ '9') ||
    c = '_' || c = '@' || c = '%' || c = '+' || c = '=' || c = ':' ||
    c = ',' || c = '.' || c = '/' || c = '-'

/-- Python shlex.quote. -/
def shlexQuote (s : String) : String :=
  if s.isEmpty then "\x27\x27"
  else if s.toList.all isShlexSafe then s
  else
    "\x27" ++
      String.join (s.toList.map (fun c =>
        if c = '\x27' then "\x27\x22\x27\x22\x27" else String.singleton c)) ++
      "\x27"

/-- runner.SessionRecord.  Wall-clock timestamps are modelled as Int. -/
structure SessionRecord where
  session_id : String
  destination : String
  host : String
  user : Option String
  port : Option Int
  default_cwd : Option String
  control_path : String
  created_at : Int
  last_used_at : Int
deriving DecidableEq

/-- The session store: the ordered entries of SessionManager._sessions
    (a Python dict keyed by session_id, so keys are unique and iteration
    follows insertion order). -/
abbrev SessionStore := List SessionRecord

/-- Uniqueness of keys, the invariant a Python dict provides by construction. -/
def storeKeysUnique (store : SessionStore) : Prop :=
  (store.map (fun r => r.session_id)).Nodup

/-- Python dict lookup self._sessions.get(session_id). -/
def storeGet (store : SessionStore) (session_id : String) : Option SessionRecord :=
  store.find? (fun r => r.session_id = session_id)

/-- Remove the first record carrying the given id (dict del on a present key). -/
def removeFirstById : SessionStore → String → SessionStore
  | [], _ => []
  | r :: rest, sid => if r.session_id = sid then rest else r :: removeFirstById rest sid

/-- SessionManager.pop: self._sessions.pop(session_id, None). -/
def storePop (store : SessionStore) (session_id : String) :
    Option SessionRecord × SessionStore :=
  match storeGet store session_id with
  | none => (none, store)
  | some r => (some r, removeFirstById store session_id)

/-- The ConfigError message raised when the store is at capacity. -/
def sessionLimitMessage (max_sessions : Nat) : String :=
  "Session limit reached (" ++ toString max_sessions ++
    "). Close a session before opening a new one."

/-- SessionManager.ensure_capacity. -/
def ensure_capacity (store : SessionStore) (max_sessions : Nat) : Except String Unit :=
  if store.length ≥ max_sessions then
    Except.error (sessionLimitMessage max_sessions)
  else
    Except.ok ()

/-- SessionManager.add: re-check capacity and insert in one critical section.
    Dict assignment replaces an existing key in place, else appends. -/
def storeAdd (store : SessionStore) (record : SessionRecord) (max_sessions : Nat) :
    Except String SessionStore :=
  if store.length ≥ max_sessions then
    Except.error (sessionLimitMessage max_sessions)
  else if (storeGet store record.session_id).isSome then
    Except.ok (store.map (fun r => if r.session_id = record.session_id then record else r))
  else
    Except.ok (store ++ [record])

/-- SessionManager.touch. -/
def storeTouch (store : SessionStore) (session_id : String) (used_at : Int) :
    Option SessionRecord × SessionStore :=
  match storeGet store session_id with
  | none => (none, store)
  | some r =>
    let updated : SessionRecord :=
      { r with last_used_at := used_at }
    (some updated,
      store.map (fun x => if x.session_id = session_id then updated else x))

/-- The expiry predicate of SessionManager.remove_expired:
    now - record.last_used_at >= idle_timeout_seconds. -/
def isExpired (idle_timeout_seconds : Nat) (now : Int) (r : SessionRecord) : Bool :=
  now - r.last_used_at ≥ (idle_timeout_seconds : Int)

/-- Pop each listed id in turn, collecting the popped records
    (the list comprehension of SessionManager.remove_expired). -/
def popIds (store : SessionStore) : List String → List SessionRecord × SessionStore
  | [] => ([], store)
  | sid :: rest =>
    match storePop store sid with
    | (some r, store1) =>
      let (rs, store2) := popIds store1 rest
      (r :: rs, store2)
    | (none, store1) => popIds store1 rest

/-- SessionManager.remove_expired: collect the ids of all expired records,
    then pop each of them, all under one lock acquisition. -/
def storeRemoveExpired (store : SessionStore) (idle_timeout_seconds : Nat) (now : Int) :
    List SessionRecord × SessionStore :=
  let expired_ids :=
    (store.filter (fun r => isExpired idle_timeout_seconds now r)).map (fun r => r.session_id)
  popIds store expired_ids

/-- The directories SessionManager keeps for sockets and the askpass script. -/
structure ManagerPaths where
  root_dir : String
  fallback_socket_dir : String
deriving DecidableEq

/-- SessionManager.control_path_for (paths joined with a slash as pathlib does
    for relative names). -/
def control_path_for (paths : ManagerPaths) (session_id : String) : Except String String :=
  let socket_name := "s-" ++ session_id ++ ".sock"
  let preferred := paths.root_dir ++ "/" ++ socket_name
  if preferred.toList.length ≤ 100 then Except.ok preferred
  else
    let fallback := paths.fallback_socket_dir ++ "/" ++ socket_name
    if fallback.toList.length ≤ 100 then Except.ok fallback
    else
      Except.error ("Unable to allocate a valid SSH control socket path within length limits.")

/-- SessionManager.askpass_script_path. -/
def askpass_script_path (paths : ManagerPaths) : String :=
  paths.root_dir ++ "/ssh-askpass.sh"

/-- A subprocess environment: ordered key/value pairs, as a Python dict of
    strings. -/
abbrev EnvMap := List (String × String)

def envLookup (env : EnvMap) (key : String) : Option String :=
  (env.find? (fun p => p.fst = key)).map (fun p => p.snd)

/-- Dict assignment env[key] = value: replace the entry holding the key in
    place, or append a fresh entry.  A Python dict holds each key once, so
    replacing the first occurrence models it exactly. -/
def envSet : EnvMap → String → String → EnvMap
  | [], key, value => [(key, value)]
  | (k0, v0) :: rest, key, value =>
    if k0 = key then (key, value) :: rest else (k0, v0) :: envSet rest key value

/-- runner._build_execution_env.  base_env models dict(os.environ); the
    askpass script write is a filesystem effect with no further bearing. -/
def build_execution_env (settings : SshSettings) (paths : ManagerPaths)
    (read_file : String → Option String) (base_env : EnvMap) :
    Except String (Option EnvMap) := do
  let password ← resolve_password settings read_file
  match password with
  | none => Except.ok none
  | some pw =>
    let askpass_path := askpass_script_path paths
    let env := envSet base_env ("SSH_ASKPASS") askpass_path
    let env := envSet env ("SSH_ASKPASS_REQUIRE") ("force")
    let env := envSet env ("DISPLAY") ((envLookup env ("DISPLAY")).getD (":0"))
    let env := envSet env ("SSH_MCP_TOOL_PASSWORD") pw
    Except.ok (some env)

/-- runner._build_open_command. -/
def build_open_command (settings : SshSettings) (destination : String) (port : Option Int)
    (control_path : String) (password_auth_enabled : Bool) : List String :=
  settings.command ::
    settings.base_args ++
    (match port with
     | some p => ["-p", toString p]
     | none => []) ++
    ["-o", "ControlMaster=yes",
     "-o", "ControlPath=" ++ control_path,
     "-o", "ControlPersist=" ++ toString settings.session_idle_timeout_seconds] ++
    (if password_auth_enabled then
      ["-o", "BatchMode=no",
       "-o", "PubkeyAuthentication=no",
       "-o", "PreferredAuthentications=password,keyboard-interactive"]
    else []) ++
    [destination, "--", "echo __ssh_mcp_session_opened__"]

/-- runner._build_session_exec_command. -/
def build_session_exec_command (settings : SshSettings) (record : SessionRecord)
    (remote_command : String) : List String :=
  settings.command ::
    settings.base_args ++
    (match record.port with
     | some p => ["-p", toString p]
     | none => []) ++
    ["-o", "ControlMaster=no",
     "-o", "ControlPath=" ++ record.control_path,
     record.destination, "--", remote_command]

/-- runner._build_close_command. -/
def build_close_command (settings : SshSettings) (record : SessionRecord) : List String :=
  settings.command ::
    settings.base_args ++
    (match record.port with
     | some p => ["-p", toString p]
     | none => []) ++
    ["-o", "ControlPath=" ++ record.control_path,
     "-O", "exit", record.destination]

/-- Lowercase hexadecimal digit character for a value below 16. -/
def hexDigitChar (n : Nat) : Char :=
  if n < 10 then Char.ofNat (48 + n) else Char.ofNat (87 + n)

/-- secrets.token_hex(4): eight lowercase hex characters.  The entropy source
    is modelled as a Nat seed rendered in base 16. -/
def tokenHex4 (seed : Nat) : String :=
  String.mk ((List.range 8).map (fun i => hexDigitChar (seed / 16 ^ (7 - i) % 16)))

/-- The ConfigError message raised when id generation is exhausted. -/
def allocFailureMessage : String := "Failed to allocate a unique session_id."

/-- The retry loop of runner._generate_session_id: attempts_left draws remain,
    the next draw is seeds i; seeds models the stream of secrets.token_hex
    outputs. -/
def generateSessionIdFrom (store : SessionStore) (seeds : Nat → Nat) :
    Nat → Nat → Except String String
  | 0, _ => Except.error allocFailureMessage
  | Nat.succ attempts_left, i =>
    if (storeGet store (tokenHex4 (seeds i))).isSome then
      generateSessionIdFrom store seeds attempts_left (i + 1)
    else
      Except.ok (tokenHex4 (seeds i))

/-- runner._generate_session_id: up to 50 draws against the store. -/
def generate_session_id (store : SessionStore) (seeds : Nat → Nat) : Except String String :=
  generateSessionIdFrom store seeds 50 0

/-- runner._compose_remote_command. -/
def compose_remote_command (command : String) (cwd : Option String) : String :=
  match cwd with
  | none => command
  | some c => "cd " ++ shlexQuote c ++ " && " ++ command

/-- runner.SshToolResult. -/
structure SshToolResult where
  ok : Bool
  action : String
  command : List String
  session_id : Option String
  destination : Option String
  host : Option String
  user : Option String
  port : Option Int
  remote_command : Option String
  cwd : Option String
  stdout : Option String
  stderr : Option String
  exit_code : Option Int
  duration_ms : Option Nat
  error_type : Option String
  error_message : Option String
  session_count : Option Nat
  created_at : Option Int
  last_used_at : Option Int
deriving DecidableEq

/-- runner._ExecutionSpec. -/
structure ExecutionSpec where
  action : String
  command : List String
  session_id : Option String
  destination : Option String
  host : Option String
  user : Option String
  port : Option Int
  remote_command : Option String
  cwd : Option String
  created_at : Option Int
  last_used_at : Option Int
  env : Option EnvMap
deriving DecidableEq

/-- The outcome of one subprocess.run call, supplied as an oracle:
    FileNotFoundError, TimeoutExpired (with any partial output),
    another OSError, or completion with captured output and exit code. -/
inductive ExecOutcome where
  | fileNotFound
  | timedOut (stdout stderr : Option String)
  | osError (message : String)
  | completed (stdout stderr : String) (returncode : Int)
deriving DecidableEq

/-- Whether the outcome makes runner._execute return a failure result. -/
def outcomeFails : ExecOutcome → Bool
  | ExecOutcome.fileNotFound => true
  | ExecOutcome.timedOut _ _ => true
  | ExecOutcome.osError _ => true
  | ExecOutcome.completed _ _ rc => rc ≠ 0

/-- runner._error_result. -/
def error_result (action : String) (command : List String)
    (session_id destination host user : Option String) (port : Option Int)
    (remote_command cwd : Option String) (created_at last_used_at : Option Int)
    (error_type error_message : String) (stdout stderr : Option String)
    (exit_code : Option Int) (duration_ms : Option Nat) (session_count : Option Nat) :
    SshToolResult :=
  { ok := false
    action := action
    command := command
    session_id := session_id
    destination := destination
    host := host
    user := user
    port := port
    remote_command := remote_command
    cwd := cwd
    stdout := stdout
    stderr := stderr
    exit_code := exit_code
    duration_ms := duration_ms
    error_type := some error_type
    error_message := some error_message
    session_count := session_count
    created_at := created_at
    last_used_at := last_used_at }

/-- runner._normalize_output. -/
def normalize_output (value : Option String) (max_output_chars : Nat) : Option String :=
  match value with
  | none => none
  | some v =>
    let normalized := pyStrip v
    if normalized.isEmpty then none
    else if normalized.toList.length ≤ max_output_chars then some normalized
    else
      some (String.mk (normalized.toList.take max_output_chars) ++
        "\n...[truncated to " ++ toString max_output_chars ++ " chars]")

/-- runner._execute.  The subprocess outcome and the measured duration are
    oracle inputs; everything else follows the source. -/
def executeSpec (spec : ExecutionSpec) (timeout_seconds : Nat) (max_output_chars : Nat)
    (outcome : ExecOutcome) (duration_ms : Nat) : SshToolResult :=
  match outcome with
  | ExecOutcome.fileNotFound =>
    error_result spec.action spec.command spec.session_id spec.destination spec.host
      spec.user spec.port spec.remote_command spec.cwd spec.created_at spec.last_used_at
      ("config") ("Command \x27" ++ spec.command.headD ("") ++ "\x27 was not found.")
      none none none (some duration_ms) none
  | ExecOutcome.timedOut stdout stderr =>
    error_result spec.action spec.command spec.session_id spec.destination spec.host
      spec.user spec.port spec.remote_command spec.cwd spec.created_at spec.last_used_at
      ("timeout") ("Command timed out after " ++ toString timeout_seconds ++ " seconds.")
      (normalize_output stdout max_output_chars) (normalize_output stderr max_output_chars)
      none (some duration_ms) none
  | ExecOutcome.osError message =>
    error_result spec.action spec.command spec.session_id spec.destination spec.host
      spec.user spec.port spec.remote_command spec.cwd spec.created_at spec.last_used_at
      ("execution") ("Failed to execute command: " ++ message)
      none none none (some duration_ms) none
  | ExecOutcome.completed out err rc =>
    let stdout := normalize_output (some out) max_output_chars
    let stderr := normalize_output (some err) max_output_chars
    if rc ≠ 0 then
      error_result spec.action spec.command spec.session_id spec.destination spec.host
        spec.user spec.port spec.remote_command spec.cwd spec.created_at spec.last_used_at
        ("execution") ("Command exited with status " ++ toString rc ++ ".")
        stdout stderr (some rc) (some duration_ms) none
    else
      { ok := true
        action := spec.action
        command := spec.command
        session_id := spec.session_id
        destination := spec.destination
        host := spec.host
        user := spec.user
        port := spec.port
        remote_command := spec.remote_command
        cwd := spec.cwd
        stdout := stdout
        stderr := stderr
        exit_code := some rc
        duration_ms := some duration_ms
        error_type := none
        error_message := none
        session_count := none
        created_at := spec.created_at
        last_used_at := spec.last_used_at }

/-- runner._cleanup_expired_sessions: sweep the store; the per-record
    control-exit command and socket unlink are external effects. -/
def cleanup_expired_sessions (settings : SshSettings) (store : SessionStore) (now : Int) :
    SessionStore :=
  (storeRemoveExpired store settings.session_idle_timeout_seconds now).2

/-- Python truthiness-guarded strip of open_session error reporting:
    host.strip() if host else settings.default_host. -/
def strippedOrDefault (value : Option String) (fallback : Option String) : Option String :=
  match value with
  | none => fallback
  | some v => if v.isEmpty then fallback else some (pyStrip v)

/-- Python truthiness-guarded strip yielding None on falsy input:
    user.strip() if user else None. -/
def strippedOrNone (value : Option String) : Option String :=
  match value with
  | none => none
  | some v => if v.isEmpty then none else some (pyStrip v)

/-- session_id.strip().lower() if session_id else None. -/
def strippedLowerOrNone (value : String) : Option String :=
  if value.isEmpty then none else some (pyLower (pyStrip value))

/-- The oracle inputs of one run_open_session call: the wall clock (all reads
    within the call are modelled as one instant), the measured duration, the
    probe subprocess outcome, the entropy stream behind token_hex, the file
    reads behind resolve_password, and the inherited environment. -/
structure OpenOracle where
  now : Int
  duration_ms : Nat
  probe : ExecOutcome
  seeds : Nat → Nat
  read_file : String → Option String
  base_env : EnvMap

/-- runner.run_open_session.  The Except layer carries exceptions the source
    does not catch (id-generation exhaustion and control-path allocation);
    ordinary results come back paired with the store they leave behind. -/
def run_open_session (settings : SshSettings) (paths : ManagerPaths) (store : SessionStore)
    (host user : Option String) (port : Option Int) (cwd : Option String)
    (o : OpenOracle) : Except String (SshToolResult × SessionStore) :=
  let store1 := cleanup_expired_sessions settings store o.now
  let validated : Except String (ResolvedTarget × Option String × Option EnvMap) := do
    let target ← resolve_target settings host user port
    let normalized_cwd ← resolve_remote_cwd cwd
    let _ ← ensure_capacity store1 settings.max_sessions
    let execution_env ← build_execution_env settings paths o.read_file o.base_env
    Except.ok (target, normalized_cwd, execution_env)
  match validated with
  | Except.error exc =>
    Except.ok
      (error_result ("open_session") [settings.command] none none
        (strippedOrDefault host settings.default_host) (strippedOrNone user) port
        none (strippedOrNone cwd) none none
        ("validation") exc none none none none (some store1.length), store1)
  | Except.ok (target, normalized_cwd, execution_env) => do
    let session_id ← generate_session_id store1 o.seeds
    let control_path ← control_path_for paths session_id
    let password_auth_enabled := execution_env.isSome
    let open_command :=
      build_open_command settings target.destination target.port control_path
        password_auth_enabled
    let spec : ExecutionSpec :=
      { action := "open_session"
        command := open_command
        session_id := some session_id
        destination := some target.destination
        host := some target.host
        user := target.user
        port := target.port
        remote_command := none
        cwd := normalized_cwd
        created_at := none
        last_used_at := none
        env := execution_env }
    let open_result :=
      executeSpec spec settings.timeout_seconds settings.max_output_chars o.probe
        o.duration_ms
    if open_result.ok = false then
      Except.ok ({ open_result with session_count := some store1.length }, store1)
    else
      let record : SessionRecord :=
        { session_id := session_id
          destination := target.destination
          host := target.host
          user := target.user
          port := target.port
          default_cwd := normalized_cwd
          control_path := control_path
          created_at := o.now
          last_used_at := o.now }
      match storeAdd store1 record settings.max_sessions with
      | Except.error exc =>
        Except.ok
          (error_result ("open_session") open_command (some session_id)
            (some target.destination) (some target.host) target.user target.port
            none normalized_cwd (some o.now) (some o.now)
            ("validation") exc none none none none (some store1.length), store1)
      | Except.ok store2 =>
        Except.ok
          ({ ok := true
             action := "open_session"
             command := open_command
             session_id := some session_id
             destination := some target.destination
             host := some target.host
             user := target.user
             port := target.port
             remote_command := none
             cwd := normalized_cwd
             stdout := open_result.stdout
             stderr := open_result.stderr
             exit_code := open_result.exit_code
             duration_ms := open_result.duration_ms
             error_type := none
             error_message := none
             session_count := some store2.length
             created_at := some o.now
             last_used_at := some o.now }, store2)

/-- The try-block of runner.run_session_exec: the first ConfigError raised by
    any of the four validators is caught and reported as a validation error. -/
def sessionExecValidate (settings : SshSettings) (paths : ManagerPaths)
    (session_id command : String) (cwd : Option String)
    (read_file : String → Option String) (base_env : EnvMap) :
    Except String (String × String × Option String × Option EnvMap) :=
  match normalize_session_id session_id with
  | Except.error e => Except.error e
  | Except.ok nsid =>
    match normalize_remote_command command settings.max_command_chars with
    | Except.error e => Except.error e
    | Except.ok ncmd =>
      match resolve_remote_cwd cwd with
      | Except.error e => Except.error e
      | Except.ok ncwd =>
        match build_execution_env settings paths read_file base_env with
        | Except.error e => Except.error e
        | Except.ok execution_env => Except.ok (nsid, ncmd, ncwd, execution_env)

/-- runner.run_session_exec.  The exec subprocess outcome, duration, clock,
    password-file reads and inherited environment are oracle inputs. -/
def run_session_exec (settings : SshSettings) (paths : ManagerPaths) (store : SessionStore)
    (session_id command : String) (cwd : Option String)
    (now : Int) (duration_ms : Nat) (outcome : ExecOutcome)
    (read_file : String → Option String) (base_env : EnvMap) :
    SshToolResult × SessionStore :=
  let store1 := cleanup_expired_sessions settings store now
  match sessionExecValidate settings paths session_id command cwd read_file base_env with
  | Except.error exc =>
    (error_result ("session_exec") [settings.command] (strippedLowerOrNone session_id)
      none none none none none (strippedOrNone cwd) none none
      ("validation") exc none none none none (some store1.length), store1)
  | Except.ok (nsid, ncmd, ncwd, execution_env) =>
    match storeGet store1 nsid with
    | none =>
      (error_result ("session_exec") [settings.command] (some nsid)
        none none none none none ncwd none none
        ("execution") ("Session \x27" ++ nsid ++ "\x27 was not found or has expired.")
        none none none none (some store1.length), store1)
    | some record =>
      let effective_cwd :=
        match ncwd with
        | some c => some c
        | none => record.default_cwd
      let remote_command := compose_remote_command ncmd effective_cwd
      let exec_command := build_session_exec_command settings record remote_command
      let spec : ExecutionSpec :=
        { action := "session_exec"
          command := exec_command
          session_id := some record.session_id
          destination := some record.destination
          host := some record.host
          user := record.user
          port := record.port
          remote_command := some remote_command
          cwd := effective_cwd
          created_at := some record.created_at
          last_used_at := some record.last_used_at
          env := execution_env }
      let result :=
        executeSpec spec settings.timeout_seconds settings.max_output_chars outcome
          duration_ms
      let (touched, store2) := storeTouch store1 record.session_id now
      let result1 :=
        match touched with
        | some t => { result with last_used_at := some t.last_used_at }
        | none => result
      ({ result1 with session_count := some store2.length }, store2)

/-- runner.run_close_session. -/
def run_close_session (settings : SshSettings) (store : SessionStore)
    (session_id : String) (now : Int) (duration_ms : Nat) (outcome : ExecOutcome) :
    SshToolResult × SessionStore :=
  let store1 := cleanup_expired_sessions settings store now
  match normalize_session_id session_id with
  | Except.error exc =>
    (error_result ("close_session") [settings.command] (strippedLowerOrNone session_id)
      none none none none none none none none
      ("validation") exc none none none none (some store1.length), store1)
  | Except.ok nsid =>
    match storePop store1 nsid with
    | (none, store2) =>
      (error_result ("close_session") [settings.command] (some nsid)
        none none none none none none none none
        ("execution")
        ("Session \x27" ++ nsid ++ "\x27 was not found or has already been closed.")
        none none none none (some store2.length), store2)
    | (some record, store2) =>
      let close_command := build_close_command settings record
      let spec : ExecutionSpec :=
        { action := "close_session"
          command := close_command
          session_id := some record.session_id
          destination := some record.destination
          host := some record.host
          user := record.user
          port := record.port
          remote_command := none
          cwd := record.default_cwd
          created_at := some record.created_at
          last_used_at := some record.last_used_at
          env := none }
      let result :=
        executeSpec spec settings.timeout_seconds settings.max_output_chars outcome
          duration_ms
      ({ result with session_count := some store2.length }, store2)

/-! ### Store lemmas -/

theorem executeSpec_ok (spec : ExecutionSpec) (t m : Nat) (o : ExecOutcome) (d : Nat) :
    (executeSpec spec t m o d).ok = !outcomeFails o := by
  cases o with
  | fileNotFound => rfl
  | timedOut s1 s2 => rfl
  | osError msg => rfl
  | completed out err rc =>
    by_cases h : rc = 0 <;> simp [executeSpec, error_result, outcomeFails, h]

theorem storeGet_nil (sid : String) : storeGet [] sid = none := rfl

theorem storeGet_cons (r : SessionRecord) (rest : SessionStore) (sid : String) :
    storeGet (r :: rest) sid = if r.session_id = sid then some r else storeGet rest sid := by
  by_cases h : r.session_id = sid <;> simp [storeGet, List.find?, h]

theorem removeFirstById_length (store : SessionStore) (sid : String)
    (h : (storeGet store sid).isSome) :
    (removeFirstById store sid).length + 1 = store.length := by
  induction store with
  | nil => simp [storeGet] at h
  | cons r rest ih =>
    by_cases hr : r.session_id = sid
    · simp [removeFirstById, hr]
    · rw [storeGet_cons] at h
      simp only [hr, if_false] at h
      simp [removeFirstById, hr, ih h]

theorem storeGet_eq_none_iff (store : SessionStore) (sid : String) :
    storeGet store sid = none ↔ ∀ r ∈ store, r.session_id ≠ sid := by
  simp [storeGet, List.find?_eq_none]

theorem storeGet_isSome_of_mem (store : SessionStore) (r : SessionRecord)
    (hmem : r ∈ store) (sid : String) (hid : r.session_id = sid) :
    (storeGet store sid).isSome := by
  rcases h : storeGet store sid with _ | r2
  · rw [storeGet_eq_none_iff] at h
    exact absurd hid (h r hmem)
  · rfl

theorem removeFirstById_of_absent (store : SessionStore) (sid : String)
    (h : storeGet store sid = none) : removeFirstById store sid = store := by
  induction store with
  | nil => rfl
  | cons r rest ih =>
    rw [storeGet_cons] at h
    by_cases hr : r.session_id = sid
    · simp [hr] at h
    · simp only [hr, if_false] at h
      simp [removeFirstById, hr, ih h]

theorem mem_removeFirstById (store : SessionStore) (sid : String) (x : SessionRecord)
    (h : x ∈ removeFirstById store sid) : x ∈ store := by
  induction store with
  | nil => simp [removeFirstById] at h
  | cons r rest ih =>
    by_cases hr : r.session_id = sid
    · simp only [removeFirstById, hr, if_true] at h
      exact List.mem_cons_of_mem r h
    · simp only [removeFirstById, hr, if_false, List.mem_cons] at h
      rcases h with h | h
      · exact h ▸ List.mem_cons_self r rest
      · exact List.mem_cons_of_mem r (ih h)

theorem storeGet_removeFirstById_self (store : SessionStore) (sid : String)
    (hnd : storeKeysUnique store) :
    storeGet (removeFirstById store sid) sid = none := by
  induction store with
  | nil => rfl
  | cons r rest ih =>
    simp only [storeKeysUnique, List.map_cons, List.nodup_cons] at hnd
    by_cases hr : r.session_id = sid
    · simp only [removeFirstById, hr, if_true]
      rw [storeGet_eq_none_iff]
      intro x hx hxid
      exact hnd.1 (hr ▸ hxid ▸ List.mem_map_of_mem (fun a => a.session_id) hx)
    · simp only [removeFirstById, hr, if_false]
      rw [storeGet_cons]
      simp only [hr, if_false]
      exact ih hnd.2

theorem popIds_nil (store : SessionStore) : popIds store [] = ([], store) := rfl

theorem popIds_cons_absent (r : SessionRecord) (rest : SessionStore) (sids : List String)
    (h : r.session_id ∉ sids) :
    popIds (r :: rest) sids = ((popIds rest sids).1, r :: (popIds rest sids).2) := by
  induction sids generalizing rest with
  | nil => rfl
  | cons sid tail ih =>
    have hne : r.session_id ≠ sid := fun he => h (he ▸ List.mem_cons_self sid tail)
    have htail : r.session_id ∉ tail := fun ht => h (List.mem_cons_of_mem sid ht)
    have hget : storeGet (r :: rest) sid = storeGet rest sid := by
      rw [storeGet_cons]
      simp [hne]
    rcases hrest : storeGet rest sid with _ | x
    · have h1 : storePop (r :: rest) sid = (none, r :: rest) := by
        simp [storePop, hget, hrest]
      have h2 : storePop rest sid = (none, rest) := by
        simp [storePop, hrest]
      simp only [popIds, h1, h2]
      exact ih rest htail
    · have hrem : removeFirstById (r :: rest) sid = r :: removeFirstById rest sid := by
        simp [removeFirstById, hne]
      have h1 : storePop (r :: rest) sid = (some x, r :: removeFirstById rest sid) := by
        simp [storePop, hget, hrest, hrem]
      have h2 : storePop rest sid = (some x, removeFirstById rest sid) := by
        simp [storePop, hrest]
      simp only [popIds, h1, h2]
      rw [ih (removeFirstById rest sid) htail]

theorem storeRemoveExpired_eq (store : SessionStore) (t : Nat) (now : Int)
    (hnd : storeKeysUnique store) :
    storeRemoveExpired store t now =
      (store.filter (fun r => isExpired t now r),
       store.filter (fun r => !isExpired t now r)) := by
  induction store with
  | nil => rfl
  | cons r rest ih =>
    simp only [storeKeysUnique, List.map_cons, List.nodup_cons] at hnd
    have hrid : r.session_id ∉ (rest.map (fun x => x.session_id)) := hnd.1
    have ihr := ih hnd.2
    by_cases hp : isExpired t now r = true
    · have hfil : (r :: rest).filter (fun x => isExpired t now x) =
          r :: rest.filter (fun x => isExpired t now x) := by
        simp [List.filter_cons, hp]
      have hfil2 : (r :: rest).filter (fun x => !isExpired t now x) =
          rest.filter (fun x => !isExpired t now x) := by
        simp [List.filter_cons, hp]
      have hpop : storePop (r :: rest) r.session_id = (some r, rest) := by
        simp [storePop, storeGet_cons, removeFirstById]
      simp only [storeRemoveExpired, hfil, hfil2, List.map_cons, popIds, hpop]
      have := ihr
      simp only [storeRemoveExpired] at this
      rw [this]
    · have hpb : isExpired t now r = false := by
        revert hp
        cases isExpired t now r <;> simp
      have hfil : (r :: rest).filter (fun x => isExpired t now x) =
          rest.filter (fun x => isExpired t now x) := by
        simp [List.filter_cons, hpb]
      have hfil2 : (r :: rest).filter (fun x => !isExpired t now x) =
          r :: rest.filter (fun x => !isExpired t now x) := by
        simp [List.filter_cons, hpb]
      have habs : r.session_id ∉
          ((rest.filter (fun x => isExpired t now x)).map (fun x => x.session_id)) := by
        intro hin
        rcases List.mem_map.mp hin with ⟨x, hx, hxid⟩
        exact hrid (List.mem_map_of_mem (fun a => a.session_id) (List.mem_of_mem_filter hx) |>
          (hxid ▸ ·))
      simp only [storeRemoveExpired, hfil, hfil2]
      rw [popIds_cons_absent r rest _ habs]
      have := ihr
      simp only [storeRemoveExpired] at this
      rw [this]

theorem cleanup_eq_self (settings : SshSettings) (store : SessionStore) (now : Int)
    (h : ∀ r ∈ store, isExpired settings.session_idle_timeout_seconds now r = false) :
    cleanup_expired_sessions settings store now = store := by
  have hfil : store.filter (fun r => isExpired settings.session_idle_timeout_seconds now r)
      = [] := by
    rw [List.filter_eq_nil_iff]
    intro a ha
    simp [h a ha]
  simp [cleanup_expired_sessions, storeRemoveExpired, hfil, popIds]

theorem storeGet_cleanup_of_expired (settings : SshSettings) (store : SessionStore)
    (now : Int) (r : SessionRecord) (hnd : storeKeysUnique store) (hmem : r ∈ store)
    (hexp : isExpired settings.session_idle_timeout_seconds now r = true) :
    storeGet (cleanup_expired_sessions settings store now) r.session_id = none := by
  unfold cleanup_expired_sessions
  rw [storeRemoveExpired_eq store settings.session_idle_timeout_seconds now hnd]
  rw [storeGet_eq_none_iff]
  intro x hx hxid
  rcases List.mem_filter.mp hx with ⟨hxmem, hxp⟩
  have hxr : x = r :=
    List.inj_on_of_nodup_map hnd hxmem hmem hxid
  rw [hxr, hexp] at hxp
  simp at hxp

/-! ### Environment lemmas -/

theorem envLookup_nil (k : String) : envLookup [] k = none := rfl

theorem envLookup_cons (k0 v0 : String) (rest : EnvMap) (k : String) :
    envLookup ((k0, v0) :: rest) k = if k0 = k then some v0 else envLookup rest k := by
  by_cases h : k0 = k <;> simp [envLookup, List.find?, h]

theorem envLookup_envSet (env : EnvMap) (k v k' : String) :
    envLookup (envSet env k v) k' = if k = k' then some v else envLookup env k' := by
  induction env with
  | nil => by_cases h : k = k' <;> simp [envSet, envLookup_cons, envLookup_nil, h]
  | cons p rest ih =>
    rcases p with ⟨k0, v0⟩
    by_cases h0 : k0 = k
    · subst h0
      by_cases h : k0 = k' <;> simp [envSet, envLookup_cons, h]
    · simp only [envSet, h0, if_false, envLookup_cons, ih]
      by_cases h1 : k0 = k'
      · have hkk : k ≠ k' := fun he => h0 (he ▸ h1)
        simp [h1, hkk]
      · simp [h1]

/-! ### Session id generation lemmas -/

theorem hexDigitChar_isLowerHex (n : Nat) (h : n < 16) :
    isLowerHex (hexDigitChar n) = true := by
  interval_cases n <;> decide

theorem tokenHex4_length (seed : Nat) : (tokenHex4 seed).toList.length = 8 := by
  have hlist : (tokenHex4 seed).toList =
      (List.range 8).map (fun i => hexDigitChar (seed / 16 ^ (7 - i) % 16)) := rfl
  rw [hlist, List.length_map, List.length_range]

theorem tokenHex4_all_hex (seed : Nat) : (tokenHex4 seed).toList.all isLowerHex = true := by
  have hlist : (tokenHex4 seed).toList =
      (List.range 8).map (fun i => hexDigitChar (seed / 16 ^ (7 - i) % 16)) := rfl
  rw [hlist, List.all_eq_true]
  intro c hc
  rcases List.mem_map.mp hc with ⟨i, _, hi⟩
  rw [← hi]
  exact hexDigitChar_isLowerHex _ (Nat.mod_lt _ (by norm_num))

theorem tokenHex4_matches (seed : Nat) : matchesSessionIdPattern (tokenHex4 seed) = true := by
  unfold matchesSessionIdPattern
  rw [tokenHex4_length, tokenHex4_all_hex]
  rfl

theorem generateSessionIdFrom_ok (store : SessionStore) (seeds : Nat → Nat) :
    ∀ (fuel i : Nat) (sid : String),
      generateSessionIdFrom store seeds fuel i = Except.ok sid →
      (∃ j, sid = tokenHex4 (seeds j)) ∧ storeGet store sid = none := by
  intro fuel
  induction fuel with
  | zero =>
    intro i sid h
    exact absurd h (by simp [generateSessionIdFrom])
  | succ n ih =>
    intro i sid h
    unfold generateSessionIdFrom at h
    rcases hget : storeGet store (tokenHex4 (seeds i)) with _ | x
    · rw [hget] at h
      simp only [Option.isSome_none, Bool.false_eq_true, if_false, Except.ok.injEq] at h
      subst h
      exact ⟨⟨i, rfl⟩, hget⟩
    · rw [hget] at h
      simp only [Option.isSome_some, if_true] at h
      exact ih (i + 1) sid h

theorem generate_session_id_ok (store : SessionStore) (seeds : Nat → Nat) (sid : String)
    (h : generate_session_id store seeds = Except.ok sid) :
    matchesSessionIdPattern sid = true ∧ storeGet store sid = none := by
  rcases generateSessionIdFrom_ok store seeds 50 0 sid h with ⟨⟨j, hj⟩, hget⟩
  exact ⟨hj ▸ tokenHex4_matches (seeds j), hget⟩

theorem generateSessionIdFrom_exhausted (store : SessionStore) (seeds : Nat → Nat) :
    ∀ (fuel i : Nat),
      (∀ j, i ≤ j → j < i + fuel → (storeGet store (tokenHex4 (seeds j))).isSome = true) →
      generateSessionIdFrom store seeds fuel i = Except.error allocFailureMessage := by
  intro fuel
  induction fuel with
  | zero => intro i _; rfl
  | succ n ih =>
    intro i hall
    unfold generateSessionIdFrom
    rw [hall i (le_refl i) (by omega)]
    simp only [if_true]
    exact ih (i + 1) (fun j hj1 hj2 => hall j (by omega) (by omega))

/-- Exhausting all 50 draws raises the fatal allocation ConfigError. -/
theorem generate_session_id_exhausted (store : SessionStore) (seeds : Nat → Nat)
    (hall : ∀ j, j < 50 → (storeGet store (tokenHex4 (seeds j))).isSome = true) :
    generate_session_id store seeds = Except.error allocFailureMessage :=
  generateSessionIdFrom_exhausted store seeds 50 0 (fun j _ hj2 => hall j (by omega))

/-! ### Except bind reduction -/

theorem bind_ok_eq {ε α β : Type} (a : α) (f : α → Except ε β) :
    (bind (Except.ok a) f : Except ε β) = f a := rfl

theorem bind_error_eq {ε α β : Type} (e : ε) (f : α → Except ε β) :
    (bind (Except.error e) f : Except ε β) = Except.error e := rfl

theorem storeAdd_length_le (store : SessionStore) (r : SessionRecord) (max_sessions : Nat)
    (store2 : SessionStore) (h : storeAdd store r max_sessions = Except.ok store2) :
    store2.length ≤ max_sessions := by
  unfold storeAdd at h
  by_cases hlen : store.length ≥ max_sessions
  · rw [if_pos hlen] at h
    exact absurd h (by simp)
  · rw [if_neg hlen] at h
    by_cases hsome : (storeGet store r.session_id).isSome = true
    · rw [if_pos hsome, Except.ok.injEq] at h
      subst h
      simp only [List.length_map]
      omega
    · rw [if_neg hsome, Except.ok.injEq] at h
      subst h
      simp only [List.length_append, List.length_cons, List.length_nil]
      omega

theorem storeAdd_fresh (store : SessionStore) (r : SessionRecord) (max_sessions : Nat)
    (store2 : SessionStore) (hfresh : storeGet store r.session_id = none)
    (h : storeAdd store r max_sessions = Except.ok store2) :
    store2 = store ++ [r] ∧ store2.length = store.length + 1 := by
  unfold storeAdd at h
  by_cases hlen : store.length ≥ max_sessions
  · rw [if_pos hlen] at h
    exact absurd h (by simp)
  · rw [if_neg hlen] at h
    have hsome : ¬((storeGet store r.session_id).isSome = true) := by
      rw [hfresh]
      simp
    rw [if_neg hsome, Except.ok.injEq] at h
    subst h
    simp

/-! ### Concurrency machine for two racing open calls -/

/-- The store-touching steps one open call performs under the store lock:
    program counter 0 is the ensure_capacity check, 1 is the atomic
    check-and-insert of SessionManager.add, 2 is finished.  err records the
    ConfigError a step raised (run_open_session reports it as a validation
    error). -/
structure OpenThread where
  pc : Nat
  err : Option String
  record : SessionRecord
deriving DecidableEq

/-- Shared store plus the two racing open calls. -/
structure ConcState where
  store : SessionStore
  t1 : OpenThread
  t2 : OpenThread
deriving DecidableEq

/-- One atomic step (one critical section) of a thread. -/
def stepThread (max_sessions : Nat) (store : SessionStore) (t : OpenThread) :
    SessionStore × OpenThread :=
  match t.pc with
  | 0 =>
    match ensure_capacity store max_sessions with
    | Except.error e => (store, { t with pc := 2, err := some e })
    | Except.ok _ => (store, { t with pc := 1 })
  | 1 =>
    match storeAdd store t.record max_sessions with
    | Except.error e => (store, { t with pc := 2, err := some e })
    | Except.ok store2 => (store2, { t with pc := 2 })
  | _ => (store, t)

/-- Run a schedule: true hands the next step to thread 1, false to thread 2. -/
def runSchedule (max_sessions : Nat) : ConcState → List Bool → ConcState
  | s, [] => s
  | s, true :: rest =>
    runSchedule max_sessions
      { store := (stepThread max_sessions s.store s.t1).1
        t1 := (stepThread max_sessions s.store s.t1).2
        t2 := s.t2 } rest
  | s, false :: rest =>
    runSchedule max_sessions
      { store := (stepThread max_sessions s.store s.t2).1
        t1 := s.t1
        t2 := (stepThread max_sessions s.store s.t2).2 } rest

/-- Both open calls poised before their capacity check, over an empty store. -/
def initConcState (r1 r2 : SessionRecord) : ConcState :=
  { store := []
    t1 := { pc := 0, err := none, record := r1 }
    t2 := { pc := 0, err := none, record := r2 } }

theorem stepThread_store_le (max_sessions : Nat) (store : SessionStore) (t : OpenThread)
    (h : store.length ≤ max_sessions) :
    (stepThread max_sessions store t).1.length ≤ max_sessions := by
  unfold stepThread
  match t.pc with
  | 0 =>
    rcases he : ensure_capacity store max_sessions with e | u <;> simp [h]
  | 1 =>
    rcases ha : storeAdd store t.record max_sessions with e | store2
    · simp [h]
    · simp [storeAdd_length_le store t.record max_sessions store2 ha]
  | Nat.succ (Nat.succ n) => simp [h]

theorem runSchedule_store_le (max_sessions : Nat) (sched : List Bool) :
    ∀ (s : ConcState), s.store.length ≤ max_sessions →
      (runSchedule max_sessions s sched).store.length ≤ max_sessions := by
  induction sched with
  | nil => intro s h; exact h
  | cons b rest ih =>
    intro s h
    cases b
    · exact ih _ (stepThread_store_le max_sessions s.store s.t2 h)
    · exact ih _ (stepThread_store_le max_sessions s.store s.t1 h)

/-! ### Concrete fixtures -/

/-- A concrete session record used to instantiate theorems. -/
def sampleRecordA : SessionRecord :=
  { session_id := "aaaaaaaa"
    destination := "alice@h1"
    host := "h1"
    user := some "alice"
    port := none
    default_cwd := none
    control_path := "/tmp/sshmcp/s-aaaaaaaa.sock"
    created_at := 0
    last_used_at := 0 }

/-- A second concrete session record with a distinct id. -/
def sampleRecordB : SessionRecord :=
  { session_id := "bbbbbbbb"
    destination := "h2"
    host := "h2"
    user := none
    port := some 2222
    default_cwd := some "/srv"
    control_path := "/tmp/sshmcp/s-bbbbbbbb.sock"
    created_at := 0
    last_used_at := 0 }

/-- C1: the store never exceeds the configured maximum, and SessionManager.add
    re-checks capacity and inserts in one critical section: over an empty store
    with max_sessions = 1, along every prefix of every interleaving of two
    concurrent open calls the store holds at most one session, and at the end
    of every complete interleaving exactly one thread has inserted its record
    (no error) while the other ended with the ConfigError message
    "Session limit reached (1). ...", which run_open_session surfaces as a
    validation error. -/
theorem add_capacity_race_atomic (r1 r2 : SessionRecord) (a b c d : Bool) (k : Nat)
    (hsched : List.count true [a, b, c, d] = 2) :
    (runSchedule 1 (initConcState r1 r2) (List.take k [a, b, c, d])).store.length ≤ 1 ∧
    (((runSchedule 1 (initConcState r1 r2) [a, b, c, d]).t1.err = none ∧
        (runSchedule 1 (initConcState r1 r2) [a, b, c, d]).t2.err =
          some (sessionLimitMessage 1) ∧
        (runSchedule 1 (initConcState r1 r2) [a, b, c, d]).store = [r1]) ∨
      ((runSchedule 1 (initConcState r1 r2) [a, b, c, d]).t1.err =
          some (sessionLimitMessage 1) ∧
        (runSchedule 1 (initConcState r1 r2) [a, b, c, d]).t2.err = none ∧
        (runSchedule 1 (initConcState r1 r2) [a, b, c, d]).store = [r2])) := by
  constructor
  · exact runSchedule_store_le 1 (List.take k [a, b, c, d]) (initConcState r1 r2)
      (by simp [initConcState])
  · rcases a <;> rcases b <;> rcases c <;> rcases d <;>
      first
        | exact absurd hsched (by decide)
        | simp [runSchedule, stepThread, initConcState, ensure_capacity, storeAdd, storeGet]

/-- Witness for add_capacity_race_atomic at a concrete interleaving. -/
theorem add_capacity_race_atomic_witness :
    List.count true [true, false, true, false] = 2 ∧
    ((runSchedule 1 (initConcState sampleRecordA sampleRecordB)
        (List.take 3 [true, false, true, false])).store.length ≤ 1 ∧
      (((runSchedule 1 (initConcState sampleRecordA sampleRecordB)
            [true, false, true, false]).t1.err = none ∧
          (runSchedule 1 (initConcState sampleRecordA sampleRecordB)
            [true, false, true, false]).t2.err = some (sessionLimitMessage 1) ∧
          (runSchedule 1 (initConcState sampleRecordA sampleRecordB)
            [true, false, true, false]).store = [sampleRecordA]) ∨
        ((runSchedule 1 (initConcState sampleRecordA sampleRecordB)
            [true, false, true, false]).t1.err = some (sessionLimitMessage 1) ∧
          (runSchedule 1 (initConcState sampleRecordA sampleRecordB)
            [true, false, true, false]).t2.err = none ∧
          (runSchedule 1 (initConcState sampleRecordA sampleRecordB)
            [true, false, true, false]).store = [sampleRecordB]))) :=
  ⟨by decide,
    add_capacity_race_atomic sampleRecordA sampleRecordB true false true false 3 (by decide)⟩

/-- Settings fixture: ssh defaults, no allowlist, no password, no default host. -/
def fixtureSettings : SshSettings :=
  { command := "ssh"
    base_args := []
    timeout_seconds := 60
    allowed_hosts := []
    default_host := none
    default_user := none
    default_port := none
    max_command_chars := 4000
    max_output_chars := 20000
    health_check_args := ["-V"]
    password := none
    password_file := none
    session_idle_timeout_seconds := 300
    max_sessions := 32
    session_dir := none }

/-- Paths fixture. -/
def fixturePaths : ManagerPaths :=
  { root_dir := "/tmp/sshmcp-fix", fallback_socket_dir := "/tmp/ssh-mcp-sockets" }

/-- Oracle fixture whose probe subprocess fails with FileNotFoundError. -/
def fixtureOracleFail : OpenOracle :=
  { now := 0
    duration_ms := 5
    probe := ExecOutcome.fileNotFound
    seeds := fun _ => 0
    read_file := fun _ => none
    base_env := [] }

/-- C2: open is transactional.  Whenever the control-connection probe fails
    (missing binary, timeout, OS error or non-zero exit — every outcome
    _execute maps to ok:false), run_open_session reports ok:false and the
    store it leaves behind is exactly the store after the initial expiry
    sweep: no session record is created or retained. -/
theorem open_transactional (settings : SshSettings) (paths : ManagerPaths)
    (store : SessionStore) (host user : Option String) (port : Option Int)
    (cwd : Option String) (o : OpenOracle) (result : SshToolResult)
    (store2 : SessionStore) (hfail : outcomeFails o.probe = true)
    (h : run_open_session settings paths store host user port cwd o =
      Except.ok (result, store2)) :
    result.ok = false ∧ store2 = cleanup_expired_sessions settings store o.now := by
  unfold run_open_session at h
  dsimp only at h
  split at h
  · simp only [Except.ok.injEq, Prod.mk.injEq] at h
    rw [← h.1, ← h.2]
    constructor
    · rfl
    · rfl
  · rcases hgen : generate_session_id (cleanup_expired_sessions settings store o.now) o.seeds
      with e | sid
    · rw [hgen] at h
      simp [bind_error_eq] at h
    · rw [hgen] at h
      rw [bind_ok_eq] at h
      rcases hcp : control_path_for paths sid with e | cp
      · rw [hcp] at h
        simp [bind_error_eq] at h
      · rw [hcp] at h
        rw [bind_ok_eq] at h
        rw [executeSpec_ok, hfail] at h
        simp only [Bool.not_true] at h
        simp only [if_true] at h
        simp only [Except.ok.injEq, Prod.mk.injEq] at h
        rw [← h.1, ← h.2]
        constructor
        · rfl
        · rfl

/-- The result run_open_session produces for fixtureSettings with no host. -/
def fixtureOpenNoHostResult : SshToolResult :=
  error_result ("open_session") ["ssh"] none none none none none none none none none
    ("validation") ("host is required when SSH_MCP_DEFAULT_HOST is not set.")
    none none none none (some 0)

/-- Witness for open_transactional at a concrete failing open call. -/
theorem open_transactional_witness :
    outcomeFails fixtureOracleFail.probe = true ∧
    (fixtureOpenNoHostResult.ok = false ∧
      ([] : SessionStore) = cleanup_expired_sessions fixtureSettings [] fixtureOracleFail.now) :=
  ⟨by decide,
    open_transactional fixtureSettings fixturePaths [] none none none none fixtureOracleFail
      fixtureOpenNoHostResult [] (by decide) (by rfl)⟩

/-- C4: opening at capacity is rejected without mutation.  If no stored
    session is expired at call time (so the sweep removes nothing) and the
    store already holds at least max_sessions records, run_open_session
    returns ok:false with error_type validation and leaves the store exactly
    as it was. -/
theorem open_at_capacity_rejected (settings : SshSettings) (paths : ManagerPaths)
    (store : SessionStore) (host user : Option String) (port : Option Int)
    (cwd : Option String) (o : OpenOracle) (result : SshToolResult)
    (store2 : SessionStore)
    (hlive : ∀ r ∈ store, isExpired settings.session_idle_timeout_seconds o.now r = false)
    (hfull : settings.max_sessions ≤ store.length)
    (h : run_open_session settings paths store host user port cwd o =
      Except.ok (result, store2)) :
    result.ok = false ∧ result.error_type = some ("validation") ∧ store2 = store := by
  have hclean : cleanup_expired_sessions settings store o.now = store :=
    cleanup_eq_self settings store o.now hlive
  unfold run_open_session at h
  dsimp only at h
  rw [hclean] at h
  split at h
  · simp only [Except.ok.injEq, Prod.mk.injEq] at h
    rw [← h.1, ← h.2]
    refine ⟨rfl, rfl, rfl⟩
  · rename_i target ncwd env heq
    exfalso
    rcases hrt : resolve_target settings host user port with e | t
    · rw [hrt, bind_error_eq] at heq
      exact Except.noConfusion heq
    · rw [hrt, bind_ok_eq] at heq
      rcases hcw : resolve_remote_cwd cwd with e | nc
      · rw [hcw, bind_error_eq] at heq
        exact Except.noConfusion heq
      · rw [hcw, bind_ok_eq] at heq
        have hcap : ensure_capacity store settings.max_sessions =
            Except.error (sessionLimitMessage settings.max_sessions) := by
          unfold ensure_capacity
          rw [if_pos hfull]
        rw [hcap, bind_error_eq] at heq
        exact Except.noConfusion heq

/-- Settings fixture with max_sessions = 1. -/
def fixtureSettingsMax1 : SshSettings :=
  { fixtureSettings with max_sessions := 1 }

/-- The result run_open_session produces at capacity for the fixtures below. -/
def fixtureOpenAtCapResult : SshToolResult :=
  error_result ("open_session") ["ssh"] none none (some "h1") none none none none none none
    ("validation") (sessionLimitMessage 1) none none none none (some 1)

/-- Witness for open_at_capacity_rejected at a concrete full store. -/
theorem open_at_capacity_rejected_witness :
    (∀ r ∈ [sampleRecordA],
      isExpired fixtureSettingsMax1.session_idle_timeout_seconds fixtureOracleFail.now r
        = false) ∧
    fixtureSettingsMax1.max_sessions ≤ [sampleRecordA].length ∧
    (fixtureOpenAtCapResult.ok = false ∧
      fixtureOpenAtCapResult.error_type = some ("validation") ∧
      [sampleRecordA] = [sampleRecordA]) :=
  ⟨by decide, by decide,
    open_at_capacity_rejected fixtureSettingsMax1 fixturePaths [sampleRecordA]
      (some ("h1")) none none none fixtureOracleFail fixtureOpenAtCapResult [sampleRecordA]
      (by decide) (by decide) (by rfl)⟩

/-- First component of a non-fatal run_open_session outcome. -/
def openResultOf (x : Except String (SshToolResult × SessionStore)) : Option SshToolResult :=
  match x with
  | Except.ok p => some p.1
  | Except.error _ => none

/-- Oracle fixture for a successful open at wall-clock 1000 (the stored
    sample record, last used at 0, is then past the 300s idle timeout). -/
def fixtureOracleLateOpen : OpenOracle :=
  { now := 1000
    duration_ms := 7
    probe := ExecOutcome.completed ("__ssh_mcp_session_opened__") ("") 0
    seeds := fun _ => 0
    read_file := fun _ => none
    base_env := [] }

/-- C3 counterexample: with one (expired) session in the store, a successful
    open_session reports session_count = 1, not one greater than the
    pre-call count of 1 — the expiry sweep at the top of the call removed
    the expired record first, so the claimed before/after difference of
    exactly +1 fails. -/
theorem open_count_not_succ_of_precall_count :
    List.length [sampleRecordA] = 1 ∧
    (openResultOf (run_open_session fixtureSettings fixturePaths [sampleRecordA]
        (some ("h1")) none none none fixtureOracleLateOpen)).map (fun r => r.ok) =
      some true ∧
    (openResultOf (run_open_session fixtureSettings fixturePaths [sampleRecordA]
        (some ("h1")) none none none fixtureOracleLateOpen)).map
        (fun r => r.session_count) = some (some 1) ∧
    some (some 1) ≠ some (some (List.length [sampleRecordA] + 1)) := by
  refine ⟨rfl, ?_, ?_, by decide⟩
  · rfl
  · rfl

/-- C3 (amended): the plus-one and minus-one session_count deltas hold relative to the store
    after the expiry sweep; assuming no stored session is expired at call
    time (sweep is a no-op): a successful open_session reports a count one
    greater than the pre-call count; close_session on a live id reports one
    less and shrinks the store by one; close_session on a well-formed id not
    in the store returns ok:false with error_type execution and leaves the
    count and store unchanged. -/
theorem session_count_delta (settings : SshSettings) (paths : ManagerPaths)
    (store : SessionStore) (host user : Option String) (port : Option Int)
    (cwd : Option String) (o : OpenOracle) (resultO : SshToolResult) (storeO : SessionStore)
    (rawLive rawU nsidL nsidU : String) (durC durU : Nat) (outC outU : ExecOutcome)
    (hlive : ∀ r ∈ store, isExpired settings.session_idle_timeout_seconds o.now r = false) :
    ((run_open_session settings paths store host user port cwd o =
        Except.ok (resultO, storeO) ∧ resultO.ok = true) →
      resultO.session_count = some (store.length + 1) ∧
        storeO.length = store.length + 1) ∧
    ((normalize_session_id rawLive = Except.ok nsidL ∧
        (storeGet store nsidL).isSome = true) →
      (run_close_session settings store rawLive o.now durC outC).1.session_count =
          some (store.length - 1) ∧
        (run_close_session settings store rawLive o.now durC outC).2.length =
          store.length - 1) ∧
    ((normalize_session_id rawU = Except.ok nsidU ∧ storeGet store nsidU = none) →
      (run_close_session settings store rawU o.now durU outU).1.ok = false ∧
        (run_close_session settings store rawU o.now durU outU).1.error_type =
          some ("execution") ∧
        (run_close_session settings store rawU o.now durU outU).1.session_count =
          some store.length ∧
        (run_close_session settings store rawU o.now durU outU).2 = store) := by
  have hclean : cleanup_expired_sessions settings store o.now = store :=
    cleanup_eq_self settings store o.now hlive
  refine ⟨?_, ?_, ?_⟩
  · rintro ⟨h, hok⟩
    unfold run_open_session at h
    dsimp only at h
    rw [hclean] at h
    split at h
    · simp only [Except.ok.injEq, Prod.mk.injEq] at h
      rw [← h.1] at hok
      exact absurd hok (by simp [error_result])
    · rename_i target ncwd env heq
      rcases hgen : generate_session_id store o.seeds with e | sid
      · rw [hgen, bind_error_eq] at h
        exact Except.noConfusion h
      · rw [hgen, bind_ok_eq] at h
        rcases hcp : control_path_for paths sid with e | cp
        · rw [hcp, bind_error_eq] at h
          exact Except.noConfusion h
        · rw [hcp, bind_ok_eq] at h
          split at h
          · simp only [Except.ok.injEq, Prod.mk.injEq] at h
            rename_i hexecfail
            rw [← h.1] at hok
            simp only at hok
            exact absurd hok (by rw [hexecfail]; decide)
          · split at h
            · simp only [Except.ok.injEq, Prod.mk.injEq] at h
              rw [← h.1] at hok
              exact absurd hok (by simp [error_result])
            · rename_i store3 hadd
              simp only [Except.ok.injEq, Prod.mk.injEq] at h
              have hfresh := (generate_session_id_ok store o.seeds sid hgen).2
              have hlen := (storeAdd_fresh store _ settings.max_sessions store3 hfresh hadd).2
              constructor
              · rw [← h.1]
                simp only
                rw [hlen]
              · rw [← h.2, hlen]
  · rintro ⟨hnorm, hsome⟩
    rcases hget : storeGet store nsidL with _ | r
    · rw [hget] at hsome
      exact absurd hsome (by decide)
    · have hlen := removeFirstById_length store nsidL (by rw [hget]; rfl)
      unfold run_close_session
      dsimp only
      rw [hclean, hnorm]
      dsimp only
      unfold storePop
      rw [hget]
      dsimp only
      constructor
      · rw [← hlen]
        simp
      · rw [← hlen]
        simp
  · rintro ⟨hnorm, hnone⟩
    unfold run_close_session
    dsimp only
    rw [hclean, hnorm]
    dsimp only
    unfold storePop
    rw [hnone]
    dsimp only
    exact ⟨rfl, rfl, rfl, rfl⟩


/-- Witness for session_count_delta at a concrete store. -/
theorem session_count_delta_witness :
    (∀ r ∈ [sampleRecordA],
      isExpired fixtureSettings.session_idle_timeout_seconds fixtureOracleFail.now r
        = false) ∧
    (((run_open_session fixtureSettings fixturePaths [sampleRecordA] none none none none
          fixtureOracleFail = Except.ok (fixtureOpenNoHostResult, []) ∧
        fixtureOpenNoHostResult.ok = true) →
      fixtureOpenNoHostResult.session_count = some (List.length [sampleRecordA] + 1) ∧
        List.length ([] : SessionStore) = List.length [sampleRecordA] + 1) ∧
    ((normalize_session_id ("aaaaaaaa") = Except.ok ("aaaaaaaa") ∧
        (storeGet [sampleRecordA] ("aaaaaaaa")).isSome = true) →
      (run_close_session fixtureSettings [sampleRecordA] ("aaaaaaaa") fixtureOracleFail.now 3
            (ExecOutcome.completed ("") ("") 0)).1.session_count =
          some (List.length [sampleRecordA] - 1) ∧
        (run_close_session fixtureSettings [sampleRecordA] ("aaaaaaaa") fixtureOracleFail.now 3
            (ExecOutcome.completed ("") ("") 0)).2.length =
          List.length [sampleRecordA] - 1) ∧
    ((normalize_session_id ("bbbbbbbb") = Except.ok ("bbbbbbbb") ∧
        storeGet [sampleRecordA] ("bbbbbbbb") = none) →
      (run_close_session fixtureSettings [sampleRecordA] ("bbbbbbbb") fixtureOracleFail.now 3
            (ExecOutcome.completed ("") ("") 0)).1.ok = false ∧
        (run_close_session fixtureSettings [sampleRecordA] ("bbbbbbbb") fixtureOracleFail.now 3
            (ExecOutcome.completed ("") ("") 0)).1.error_type = some ("execution") ∧
        (run_close_session fixtureSettings [sampleRecordA] ("bbbbbbbb") fixtureOracleFail.now 3
            (ExecOutcome.completed ("") ("") 0)).1.session_count =
          some (List.length [sampleRecordA]) ∧
        (run_close_session fixtureSettings [sampleRecordA] ("bbbbbbbb") fixtureOracleFail.now 3
            (ExecOutcome.completed ("") ("") 0)).2 = [sampleRecordA])) :=
  ⟨by decide,
    session_count_delta fixtureSettings fixturePaths [sampleRecordA] none none none none
      fixtureOracleFail fixtureOpenNoHostResult [] ("aaaaaaaa") ("bbbbbbbb") ("aaaaaaaa")
      ("bbbbbbbb") 3 3 (ExecOutcome.completed ("") ("") 0) (ExecOutcome.completed ("") ("") 0)
      (by decide)⟩


/-- C5: for a valid caller host (non-blank, normalizing to nh) with valid
    user and port inputs, resolve_target succeeds whenever the allowlist is
    empty or contains nh, returning destination user@host when a user is
    resolved (caller user, else configured default) and bare host otherwise;
    and it fails with the allowlist ConfigError (surfaced as a validation
    error) for any host not in a non-empty allowlist. -/
theorem resolve_target_destination (settings : SshSettings) (h : String)
    (user : Option String) (port : Option Int) (nh : String) (nu : Option String)
    (rp : Option Int)
    (hne : (pyStrip h).isEmpty = false)
    (hnh : normalize_host h = Except.ok nh)
    (hnu : normalize_optional_identifier user ("user") = Except.ok nu)
    (hp : resolve_target_port settings port = Except.ok rp) :
    ((settings.allowed_hosts = [] ∨ settings.allowed_hosts.contains nh = true) →
      resolve_target settings (some h) user port =
        Except.ok
          { host := nh
            user := resolved_user_of nu settings.default_user
            port := rp
            destination := destination_of (resolved_user_of nu settings.default_user) nh }) ∧
    (settings.allowed_hosts ≠ [] → settings.allowed_hosts.contains nh = false →
      resolve_target settings (some h) user port =
        Except.error ("Host \x27" ++ nh ++ "\x27 is not allowlisted. Allowed hosts: " ++
          String.intercalate (", ") settings.allowed_hosts ++ ".")) := by
  have hhost : resolve_target_host settings (some h) = Except.ok nh := by
    unfold resolve_target_host
    dsimp only
    rw [hne]
    simp only [Bool.false_eq_true, if_false]
    exact hnh
  constructor
  · intro hallow
    unfold resolve_target
    simp only [hhost, hnu, hp]
    have hcond : (!settings.allowed_hosts.isEmpty && !settings.allowed_hosts.contains nh)
        = false := by
      rcases hallow with he | hc
      · rw [he]
        rfl
      · rw [hc]
        simp
    rw [hcond]
    rw [if_neg (show ¬(false = true) by decide)]
  · intro hne2 hnc
    unfold resolve_target
    simp only [hhost, hnu, hp]
    have hcond : (!settings.allowed_hosts.isEmpty && !settings.allowed_hosts.contains nh)
        = true := by
      rw [hnc]
      rcases hle : settings.allowed_hosts with _ | ⟨a, rest⟩
      · exact absurd hle hne2
      · rfl
    rw [hcond]
    rw [if_pos rfl]


/-- Settings fixture with a non-empty allowlist. -/
def fixtureSettingsAllow : SshSettings :=
  { fixtureSettings with allowed_hosts := ["h1", "h2"] }

/-- Witness for resolve_target_destination on an allowlisted host. -/
theorem resolve_target_destination_witness :
    (pyStrip (" h1 ")).isEmpty = false ∧
    (((fixtureSettingsAllow.allowed_hosts = [] ∨
        fixtureSettingsAllow.allowed_hosts.contains ("h1") = true) →
      resolve_target fixtureSettingsAllow (some (" h1 ")) (some ("bob")) (some 22) =
        Except.ok
          { host := "h1"
            user := resolved_user_of (some ("bob")) fixtureSettingsAllow.default_user
            port := some 22
            destination :=
              destination_of (resolved_user_of (some ("bob"))
                fixtureSettingsAllow.default_user) ("h1") }) ∧
    (fixtureSettingsAllow.allowed_hosts ≠ [] →
      fixtureSettingsAllow.allowed_hosts.contains ("h1") = false →
      resolve_target fixtureSettingsAllow (some (" h1 ")) (some ("bob")) (some 22) =
        Except.error ("Host \x27h1\x27 is not allowlisted. Allowed hosts: " ++
          String.intercalate (", ") fixtureSettingsAllow.allowed_hosts ++ "."))) :=
  ⟨by decide,
    resolve_target_destination fixtureSettingsAllow (" h1 ") (some ("bob")) (some 22)
      ("h1") (some ("bob")) (some 22) (by decide) (by rfl) (by rfl) (by rfl)⟩


/-- C6: remove_expired extracts, in one store transformation, exactly the
    records with now - last_used_at at least idle_timeout (returning them in
    store order) and keeps exactly the others; consequently an exec naming an
    expired session id (all validators passing) returns ok:false with
    error_type execution and a message naming that id. -/
theorem remove_expired_exact_and_exec_expired (settings : SshSettings)
    (paths : ManagerPaths) (store : SessionStore) (now : Int) (duration_ms : Nat)
    (outcome : ExecOutcome) (read_file : String → Option String) (base_env : EnvMap)
    (raw command : String) (cwd : Option String) (r : SessionRecord)
    (ncmd : String) (ncwd : Option String) (env : Option EnvMap)
    (hnd : storeKeysUnique store)
    (hmem : r ∈ store)
    (hexp : isExpired settings.session_idle_timeout_seconds now r = true)
    (hnorm : normalize_session_id raw = Except.ok r.session_id)
    (hv1 : normalize_remote_command command settings.max_command_chars = Except.ok ncmd)
    (hv2 : resolve_remote_cwd cwd = Except.ok ncwd)
    (hv3 : build_execution_env settings paths read_file base_env = Except.ok env) :
    storeRemoveExpired store settings.session_idle_timeout_seconds now =
      (store.filter (fun x => isExpired settings.session_idle_timeout_seconds now x),
       store.filter (fun x => !isExpired settings.session_idle_timeout_seconds now x)) ∧
    (run_session_exec settings paths store raw command cwd now duration_ms outcome
        read_file base_env).1.ok = false ∧
    (run_session_exec settings paths store raw command cwd now duration_ms outcome
        read_file base_env).1.error_type = some ("execution") ∧
    (run_session_exec settings paths store raw command cwd now duration_ms outcome
        read_file base_env).1.error_message =
      some ("Session \x27" ++ r.session_id ++ "\x27 was not found or has expired.") := by
  have hgone : storeGet (cleanup_expired_sessions settings store now) r.session_id = none :=
    storeGet_cleanup_of_expired settings store now r hnd hmem hexp
  have hval : sessionExecValidate settings paths raw command cwd read_file base_env =
      Except.ok (r.session_id, ncmd, ncwd, env) := by
    unfold sessionExecValidate
    simp only [hnorm, hv1, hv2, hv3]
  refine ⟨storeRemoveExpired_eq store settings.session_idle_timeout_seconds now hnd,
    ?_, ?_, ?_⟩ <;>
    (unfold run_session_exec
     dsimp only
     simp only [hval, hgone]
     rfl)


/-- Witness for remove_expired_exact_and_exec_expired: the sample record is
    expired at wall-clock 1000 and exec on its (uppercase) id fails. -/
theorem remove_expired_exact_and_exec_expired_witness :
    storeKeysUnique [sampleRecordA] ∧
    sampleRecordA ∈ [sampleRecordA] ∧
    isExpired fixtureSettings.session_idle_timeout_seconds 1000 sampleRecordA = true ∧
    (storeRemoveExpired [sampleRecordA] fixtureSettings.session_idle_timeout_seconds 1000 =
      (List.filter (fun x => isExpired fixtureSettings.session_idle_timeout_seconds 1000 x)
        [sampleRecordA],
       List.filter (fun x => !isExpired fixtureSettings.session_idle_timeout_seconds 1000 x)
        [sampleRecordA]) ∧
    (run_session_exec fixtureSettings fixturePaths [sampleRecordA] ("AAAAAAAA") ("ls") none
        1000 4 (ExecOutcome.completed ("") ("") 0) (fun _ => none) []).1.ok = false ∧
    (run_session_exec fixtureSettings fixturePaths [sampleRecordA] ("AAAAAAAA") ("ls") none
        1000 4 (ExecOutcome.completed ("") ("") 0) (fun _ => none) []).1.error_type =
      some ("execution") ∧
    (run_session_exec fixtureSettings fixturePaths [sampleRecordA] ("AAAAAAAA") ("ls") none
        1000 4 (ExecOutcome.completed ("") ("") 0) (fun _ => none) []).1.error_message =
      some ("Session \x27" ++ sampleRecordA.session_id ++
        "\x27 was not found or has expired.")) :=
  ⟨by unfold storeKeysUnique; decide, by decide, by decide,
    remove_expired_exact_and_exec_expired fixtureSettings fixturePaths [sampleRecordA]
      1000 4 (ExecOutcome.completed ("") ("") 0) (fun _ => none) [] ("AAAAAAAA") ("ls")
      none sampleRecordA ("ls") none none (by unfold storeKeysUnique; decide) (by decide)
      (by decide) (by rfl) (by rfl) (by rfl) (by rfl)⟩


/-- C7: every session id _generate_session_id returns matches the 8-char
    lowercase-hex session id pattern and collides with no live session in the
    store; the loop draws at most 50 candidates, and when all 50 draws are
    already live it raises the fatal allocation ConfigError instead of
    looping. -/
theorem generated_id_fresh_and_bounded (store : SessionStore) (seeds : Nat → Nat)
    (sid : String) :
    (generate_session_id store seeds = Except.ok sid →
      matchesSessionIdPattern sid = true ∧ storeGet store sid = none) ∧
    ((∀ j, j < 50 → (storeGet store (tokenHex4 (seeds j))).isSome = true) →
      generate_session_id store seeds =
        Except.error ("Failed to allocate a unique session_id.")) :=
  ⟨fun h => generate_session_id_ok store seeds sid h,
   fun hall => generate_session_id_exhausted store seeds hall⟩

/-- Witness for generated_id_fresh_and_bounded with the identity seed stream. -/
theorem generated_id_fresh_and_bounded_witness :
    generate_session_id [sampleRecordA] (fun j => j) = Except.ok ("00000000") ∧
    ((generate_session_id [sampleRecordA] (fun j => j) = Except.ok ("00000000") →
      matchesSessionIdPattern ("00000000") = true ∧
        storeGet [sampleRecordA] ("00000000") = none) ∧
    ((∀ j, j < 50 → (storeGet [sampleRecordA] (tokenHex4 j)).isSome = true) →
      generate_session_id [sampleRecordA] (fun j => j) =
        Except.error ("Failed to allocate a unique session_id."))) :=
  ⟨by rfl, generated_id_fresh_and_bounded [sampleRecordA] (fun j => j) ("00000000")⟩

/-- C8 counterexample: with a per-call working directory of "my dir", the
    remote command handed to the transport is cd \x27my dir\x27 && pwd —
    the code shell-quotes the directory — not the verbatim template
    cd my dir && pwd the claim states. -/
theorem exec_remote_command_not_verbatim :
    (run_session_exec fixtureSettings fixturePaths [sampleRecordA] ("aaaaaaaa") ("pwd")
        (some ("my dir")) 0 4 (ExecOutcome.completed ("") ("") 0) (fun _ => none)
        []).1.remote_command = some ("cd \x27my dir\x27 && pwd") ∧
    (run_session_exec fixtureSettings fixturePaths [sampleRecordA] ("aaaaaaaa") ("pwd")
        (some ("my dir")) 0 4 (ExecOutcome.completed ("") ("") 0) (fun _ => none)
        []).1.remote_command ≠ some ("cd my dir && pwd") := by
  constructor
  · rfl
  · decide

/-- C8 (amended): the remote command run_session_exec passes to the transport
    is cd q(cwd) && command with q the POSIX shell quoting of shlex.quote —
    which leaves safe directories such as /tmp unchanged — where the per-call
    cwd takes precedence over the session default, and the bare normalized
    command is passed unchanged when neither yields a cwd. -/
theorem executeSpec_remote_command (spec : ExecutionSpec) (t m : Nat) (o : ExecOutcome)
    (d : Nat) : (executeSpec spec t m o d).remote_command = spec.remote_command := by
  cases o with
  | fileNotFound => rfl
  | timedOut s1 s2 => rfl
  | osError msg => rfl
  | completed out err rc =>
    by_cases hz : rc = 0 <;> simp [executeSpec, error_result, hz]

theorem exec_remote_command_composed (settings : SshSettings) (paths : ManagerPaths)
    (store : SessionStore) (raw command : String) (cwd : Option String) (now : Int)
    (duration_ms : Nat) (outcome : ExecOutcome) (read_file : String → Option String)
    (base_env : EnvMap) (nsid ncmd : String) (ncwd : Option String) (env : Option EnvMap)
    (r : SessionRecord) (s : String)
    (hnorm : normalize_session_id raw = Except.ok nsid)
    (hv1 : normalize_remote_command command settings.max_command_chars = Except.ok ncmd)
    (hv2 : resolve_remote_cwd cwd = Except.ok ncwd)
    (hv3 : build_execution_env settings paths read_file base_env = Except.ok env)
    (hget : storeGet (cleanup_expired_sessions settings store now) nsid = some r) :
    (run_session_exec settings paths store raw command cwd now duration_ms outcome
        read_file base_env).1.remote_command =
      some (match (match ncwd with
                   | some c => some c
                   | none => r.default_cwd) with
            | none => ncmd
            | some c => "cd " ++ shlexQuote c ++ " && " ++ ncmd) ∧
    (s.isEmpty = false → s.toList.all isShlexSafe = true → shlexQuote s = s) := by
  constructor
  · have hval : sessionExecValidate settings paths raw command cwd read_file base_env =
        Except.ok (nsid, ncmd, ncwd, env) := by
      unfold sessionExecValidate
      simp only [hnorm, hv1, hv2, hv3]
    have hrid : r.session_id = nsid := by
      have := List.find?_some hget
      simpa using this
    unfold run_session_exec
    dsimp only
    simp only [hval, hget]
    unfold storeTouch
    rw [hrid, hget]
    dsimp only
    rw [executeSpec_remote_command]
    rfl
  · intro h1 h2
    unfold shlexQuote
    rw [h1, h2]
    rfl


/-- Witness for exec_remote_command_composed: explicit cwd /tmp overrides the
    session default /srv and is passed unquoted. -/
theorem exec_remote_command_composed_witness :
    ((run_session_exec fixtureSettings fixturePaths [sampleRecordB] ("bbbbbbbb") ("pwd")
        (some ("/tmp")) 0 4 (ExecOutcome.completed ("/tmp") ("") 0) (fun _ => none)
        []).1.remote_command =
      some (match (match some ("/tmp") with
                   | some c => some c
                   | none => sampleRecordB.default_cwd) with
            | none => "pwd"
            | some c => "cd " ++ shlexQuote c ++ " && " ++ "pwd") ∧
    (String.isEmpty ("/tmp") = false → List.all (String.toList ("/tmp")) isShlexSafe = true →
      shlexQuote ("/tmp") = "/tmp")) ∧
    (run_session_exec fixtureSettings fixturePaths [sampleRecordB] ("bbbbbbbb") ("pwd")
        (some ("/tmp")) 0 4 (ExecOutcome.completed ("/tmp") ("") 0) (fun _ => none)
        []).1.remote_command = some ("cd /tmp && pwd") :=
  ⟨exec_remote_command_composed fixtureSettings fixturePaths [sampleRecordB] ("bbbbbbbb")
      ("pwd") (some ("/tmp")) 0 4 (ExecOutcome.completed ("/tmp") ("") 0) (fun _ => none)
      [] ("bbbbbbbb") ("pwd") (some ("/tmp")) none sampleRecordB ("/tmp")
      (by rfl) (by rfl) (by rfl) (by rfl) (by rfl),
    by rfl⟩


/-- Settings fixture with an inline password configured. -/
def fixtureSettingsPw : SshSettings :=
  { fixtureSettings with password := some "s3cret" }

/-- The keys whose lookup differs between an inherited environment and the
    environment built for the subprocess. -/
def changedKeys (base new : EnvMap) : List String :=
  ((new.map (fun p => p.fst)) ++ (base.map (fun p => p.fst))).dedup.filter
    (fun k => envLookup new k != envLookup base k)

/-- The environment carried by a successful build_execution_env outcome. -/
def envOf (x : Except String (Option EnvMap)) : EnvMap :=
  match x with
  | Except.ok (some e) => e
  | Except.ok none => []
  | Except.error _ => []

/-- C9 counterexample: starting from an inherited environment without
    DISPLAY, the environment built for password authentication differs from
    it in four variables (SSH_ASKPASS, SSH_ASKPASS_REQUIRE, DISPLAY,
    SSH_MCP_TOOL_PASSWORD), not exactly three as claimed: the code also
    defaults DISPLAY to :0. -/
theorem askpass_env_sets_four_vars :
    (changedKeys []
        (envOf (build_execution_env fixtureSettingsPw fixturePaths (fun _ => none) []))).length
      = 4 ∧
    ¬((changedKeys []
        (envOf (build_execution_env fixtureSettingsPw fixturePaths (fun _ => none) []))).length
      = 3) := by
  constructor
  · rfl
  · decide

/-- C9 (amended): when password authentication is configured, the built
    environment holds the askpass script path in SSH_ASKPASS, forces its use
    via SSH_ASKPASS_REQUIRE=force, carries the password in
    SSH_MCP_TOOL_PASSWORD, and additionally ensures DISPLAY (inherited value,
    defaulting to :0); every other variable is inherited unchanged, and the
    argv built for the spawned open command is independent of the configured
    password, so the password never appears in it. -/
theorem askpass_env_and_argv (settings : SshSettings) (paths : ManagerPaths)
    (read_file : String → Option String) (base_env : EnvMap) (pw : String)
    (env : EnvMap) (k : String) (pw2 : Option String) (dest : String)
    (oport : Option Int) (cp : String) (flag : Bool)
    (hpw : resolve_password settings read_file = Except.ok (some pw))
    (henv : build_execution_env settings paths read_file base_env =
      Except.ok (some env)) :
    envLookup env ("SSH_ASKPASS") = some (askpass_script_path paths) ∧
    envLookup env ("SSH_ASKPASS_REQUIRE") = some ("force") ∧
    envLookup env ("SSH_MCP_TOOL_PASSWORD") = some pw ∧
    envLookup env ("DISPLAY") = some ((envLookup base_env ("DISPLAY")).getD (":0")) ∧
    (k ≠ "SSH_ASKPASS" → k ≠ "SSH_ASKPASS_REQUIRE" → k ≠ "DISPLAY" →
      k ≠ "SSH_MCP_TOOL_PASSWORD" → envLookup env k = envLookup base_env k) ∧
    build_open_command { settings with password := pw2 } dest oport cp flag =
      build_open_command settings dest oport cp flag := by
  have hbuilt : env =
      envSet (envSet (envSet (envSet base_env ("SSH_ASKPASS") (askpass_script_path paths))
          ("SSH_ASKPASS_REQUIRE") ("force")) ("DISPLAY")
          ((envLookup (envSet (envSet base_env ("SSH_ASKPASS") (askpass_script_path paths))
              ("SSH_ASKPASS_REQUIRE") ("force")) ("DISPLAY")).getD (":0")))
        ("SSH_MCP_TOOL_PASSWORD") pw := by
    unfold build_execution_env at henv
    rw [hpw, bind_ok_eq] at henv
    dsimp only at henv
    simp only [Except.ok.injEq, Option.some.injEq] at henv
    exact henv.symm
  subst hbuilt
  refine ⟨?_, ?_, ?_, ?_, ?_, rfl⟩
  · simp [envLookup_envSet]
  · simp [envLookup_envSet]
  · simp [envLookup_envSet]
  · simp [envLookup_envSet]
  · intro hk1 hk2 hk3 hk4
    simp [envLookup_envSet, Ne.symm hk1, Ne.symm hk2, Ne.symm hk3, Ne.symm hk4]


/-- Inherited-environment fixture holding DISPLAY and HOME. -/
def fixtureEnvBase : EnvMap := [("DISPLAY", ":1"), ("HOME", "/root")]

/-- The environment build_execution_env produces from fixtureEnvBase with the
    password fixture. -/
def fixtureEnvBuilt : EnvMap :=
  [("DISPLAY", ":1"), ("HOME", "/root"),
   ("SSH_ASKPASS", "/tmp/sshmcp-fix/ssh-askpass.sh"),
   ("SSH_ASKPASS_REQUIRE", "force"),
   ("SSH_MCP_TOOL_PASSWORD", "s3cret")]


/-- Witness for askpass_env_and_argv over an inherited environment holding
    DISPLAY and HOME. -/
theorem askpass_env_and_argv_witness :
    resolve_password fixtureSettingsPw (fun _ => none) = Except.ok (some "s3cret") ∧
    (envLookup fixtureEnvBuilt ("SSH_ASKPASS") = some (askpass_script_path fixturePaths) ∧
    envLookup fixtureEnvBuilt ("SSH_ASKPASS_REQUIRE") = some ("force") ∧
    envLookup fixtureEnvBuilt ("SSH_MCP_TOOL_PASSWORD") = some ("s3cret") ∧
    envLookup fixtureEnvBuilt ("DISPLAY") =
      some ((envLookup fixtureEnvBase ("DISPLAY")).getD (":0")) ∧
    (("HOME" : String) ≠ "SSH_ASKPASS" → ("HOME" : String) ≠ "SSH_ASKPASS_REQUIRE" →
      ("HOME" : String) ≠ "DISPLAY" → ("HOME" : String) ≠ "SSH_MCP_TOOL_PASSWORD" →
      envLookup fixtureEnvBuilt ("HOME") = envLookup fixtureEnvBase ("HOME")) ∧
    build_open_command { fixtureSettingsPw with password := none } ("h1") none ("/tmp/cp")
        true =
      build_open_command fixtureSettingsPw ("h1") none ("/tmp/cp") true) :=
  ⟨by rfl,
    askpass_env_and_argv fixtureSettingsPw fixturePaths (fun _ => none) fixtureEnvBase
      ("s3cret") fixtureEnvBuilt ("HOME") none ("h1") none ("/tmp/cp") true
      (by rfl) (by rfl)⟩


/-- C10: close_session on a live id pops the record from the store before the
    control-exit subprocess outcome matters: whatever the outcome, the
    returned store is the store minus that record, the id no longer resolves,
    and the reported session_count is one less; when the subprocess fails the
    call still returns ok:false with the removal already done. -/
theorem close_removes_before_subprocess (settings : SshSettings) (store : SessionStore)
    (raw : String) (now : Int) (duration_ms : Nat) (outcome : ExecOutcome)
    (nsid : String) (r : SessionRecord)
    (hnd : storeKeysUnique store)
    (hlive : ∀ x ∈ store, isExpired settings.session_idle_timeout_seconds now x = false)
    (hnorm : normalize_session_id raw = Except.ok nsid)
    (hget : storeGet store nsid = some r) :
    (run_close_session settings store raw now duration_ms outcome).2 =
      removeFirstById store nsid ∧
    storeGet (run_close_session settings store raw now duration_ms outcome).2 nsid = none ∧
    (run_close_session settings store raw now duration_ms outcome).1.session_count =
      some (store.length - 1) ∧
    (outcomeFails outcome = true →
      (run_close_session settings store raw now duration_ms outcome).1.ok = false) := by
  have hclean : cleanup_expired_sessions settings store now = store :=
    cleanup_eq_self settings store now hlive
  have hlen := removeFirstById_length store nsid (by rw [hget]; rfl)
  refine ⟨?_, ?_, ?_, ?_⟩
  · unfold run_close_session
    dsimp only
    rw [hclean, hnorm]
    dsimp only
    unfold storePop
    rw [hget]
  · unfold run_close_session
    dsimp only
    rw [hclean, hnorm]
    dsimp only
    unfold storePop
    rw [hget]
    dsimp only
    exact storeGet_removeFirstById_self store nsid hnd
  · unfold run_close_session
    dsimp only
    rw [hclean, hnorm]
    dsimp only
    unfold storePop
    rw [hget]
    dsimp only
    rw [show List.length (removeFirstById store nsid) = store.length - 1 by omega]
  · intro hfail
    unfold run_close_session
    dsimp only
    rw [hclean, hnorm]
    dsimp only
    unfold storePop
    rw [hget]
    dsimp only
    rw [executeSpec_ok, hfail]
    rfl


/-- Witness for close_removes_before_subprocess: closing the sample session
    while the close subprocess binary is missing. -/
theorem close_removes_before_subprocess_witness :
    storeKeysUnique [sampleRecordA] ∧
    normalize_session_id ("aaaaaaaa") = Except.ok ("aaaaaaaa") ∧
    ((run_close_session fixtureSettings [sampleRecordA] ("aaaaaaaa") 0 4
        ExecOutcome.fileNotFound).2 = removeFirstById [sampleRecordA] ("aaaaaaaa") ∧
    storeGet (run_close_session fixtureSettings [sampleRecordA] ("aaaaaaaa") 0 4
        ExecOutcome.fileNotFound).2 ("aaaaaaaa") = none ∧
    (run_close_session fixtureSettings [sampleRecordA] ("aaaaaaaa") 0 4
        ExecOutcome.fileNotFound).1.session_count =
      some (List.length [sampleRecordA] - 1) ∧
    (outcomeFails ExecOutcome.fileNotFound = true →
      (run_close_session fixtureSettings [sampleRecordA] ("aaaaaaaa") 0 4
        ExecOutcome.fileNotFound).1.ok = false)) :=
  ⟨by unfold storeKeysUnique; decide, by rfl,
    close_removes_before_subprocess fixtureSettings [sampleRecordA] ("aaaaaaaa") 0 4
      ExecOutcome.fileNotFound ("aaaaaaaa") sampleRecordA
      (by unfold storeKeysUnique; decide) (by decide) (by rfl) (by rfl)⟩


end SshMcp
